import Mathlib

/-!
Shallow embedding of the ONI-Agent Twitch-monitor bot (Python sources under
`src/`) together with theorems settling the specification claims about it.

The embedding follows the source files:
* `src/services/twitch.py`   — token handling, API requests, stream lookups;
* `src/bot.py`               — the polling cycle `check_streams` and
                               `send_live_notification`;
* `src/services/database.py` and `src/services/mongodb.py` — the two
                               `remove_streamer` backends;
* `src/config.py`            — the default notification template.

External effects (HTTP responses, the clock, delivery success) are passed in
as explicit parameters; each function additionally returns the list of
primitive events it performed, so ordering and counting properties can be
stated.
-/

/-! ## Data model (JSON payloads, guild configuration) -/

/-- One element of the Helix `/streams` response `data` array, restricted to
the fields the bot reads (`stream_data.get(...)` in `src/bot.py`).  Every
field is optional because the bot accesses them with `dict.get`. -/
structure StreamData where
  type : Option String
  title : Option String
  game_name : Option String
  viewer_count : Option Int
  thumbnail_url : Option String
deriving DecidableEq, Repr

/-- A parsed JSON body of a Helix API response: the bot only ever reads the
`data` field. -/
structure HelixResponse where
  data : List StreamData
deriving DecidableEq, Repr

/-- A guild document as stored by both database backends
(`{streamers, notification_channel, custom_messages}`). -/
structure GuildData where
  streamers : List String
  notification_channel : Option Int
  custom_messages : List (String × String)
deriving DecidableEq, Repr

/-- The guild collection / the `self.guilds` dict: guild id to document. -/
def Guilds : Type := Int → Option GuildData

/-- Lookup in a Python dict modelled as an association list
(`d.get(k)` / `d[k]`). -/
def dictGet : List (String × String) → String → Option String
  | [], _ => none
  | p :: rest, k => if p.1 = k then some p.2 else dictGet rest k

/-- Python truthiness of an optional string: `None` and `""` are falsy. -/
def pyFalsyStr : Option String → Bool
  | none => true
  | some s => decide (s = "")

/-- Python's `str.lower()`: lowercase every character (characters without a
lowercase mapping are unchanged). -/
def pyLower (s : String) : String :=
  String.mk (s.data.map Char.toLower)

/-! ## TwitchService: token lifecycle (`src/services/twitch.py`) -/

/-- State owned by `TwitchService`: `self.access_token` and
`self.token_expires_at` (time is modelled as an integer). -/
structure TokenState where
  access_token : Option String
  token_expires_at : Option Int
deriving DecidableEq, Repr

/-- Body of a response of the OAuth token endpoint.  `expires_in` is read
with `token_data.get('expires_in', 3600)`, hence optional. -/
structure OauthResponse where
  status : Nat
  access_token : String
  expires_in : Option Int
deriving DecidableEq, Repr

/-- Outcome of one POST to the OAuth endpoint: a response, or a raised
exception (network error and the like). -/
inductive OauthOutcome where
  | resp (r : OauthResponse)
  | exc
deriving DecidableEq, Repr

/-- Primitive external actions of the Twitch client, recorded as a trace:
one credential fetch (POST to the OAuth endpoint), or one GET of an API
endpoint. -/
inductive TEv where
  | tokenFetch
  | apiGet (endpoint : String)
deriving DecidableEq, Repr

/-- Number of credential fetches in a trace. -/
def countFetch (evs : List TEv) : Nat :=
  (evs.filter (fun e => match e with | .tokenFetch => true | _ => false)).length

/-- Number of API GET requests in a trace. -/
def countGet (evs : List TEv) : Nat :=
  (evs.filter (fun e => match e with | .apiGet _ => true | _ => false)).length

/-- Result of `_get_app_access_token` / `_ensure_valid_token`: the new
state, the boolean the method returns, and the trace of external actions. -/
structure OauthStep where
  st : TokenState
  ok : Bool
  events : List TEv
deriving DecidableEq, Repr

/-- Embedding of `TwitchService._get_app_access_token` (twitch.py lines 31-57): POST the
client credentials; on HTTP 200 store the token and set
`token_expires_at = now + (expires_in - 60)` (the 60-second safety margin),
returning `True`; on any other status or an exception return `False`
leaving the state unchanged. -/
def get_app_access_token (now : Int) (o : OauthOutcome) (st : TokenState) : OauthStep :=
  match o with
  | .resp r =>
    if r.status = 200 then
      { st := { access_token := some r.access_token
                token_expires_at := some (now + (r.expires_in.getD 3600 - 60)) }
        ok := true
        events := [.tokenFetch] }
    else { st := st, ok := false, events := [.tokenFetch] }
  | .exc => { st := st, ok := false, events := [.tokenFetch] }

/-- The staleness test of `_ensure_valid_token` (twitch.py lines 61-63):
`not self.access_token or not self.token_expires_at or
datetime.now() >= self.token_expires_at`. -/
def tokenStale (now : Int) (st : TokenState) : Bool :=
  pyFalsyStr st.access_token ||
    (match st.token_expires_at with
     | none => true
     | some e => decide (now ≥ e))

/-- Embedding of `TwitchService._ensure_valid_token` (twitch.py lines 59-65): fetch a
fresh token exactly when the current one is missing or stale, otherwise do
nothing and report success. -/
def ensure_valid_token (now : Int) (o : OauthOutcome) (st : TokenState) : OauthStep :=
  if tokenStale now st then get_app_access_token now o st
  else { st := st, ok := true, events := [] }

/-- A response of a Helix GET request (status plus parsed JSON body). -/
structure ApiResponse where
  status : Nat
  body : HelixResponse
deriving DecidableEq, Repr

/-- Outcome of one Helix GET: a response or a raised exception. -/
inductive ReqOutcome where
  | resp (r : ApiResponse)
  | exc
deriving DecidableEq, Repr

/-- Result of `_make_api_request`: the new token state, the value returned
(`None` on any failure), and the trace of external actions. -/
structure ApiCall where
  st : TokenState
  result : Option HelixResponse
  events : List TEv
deriving DecidableEq, Repr

/-- Embedding of `TwitchService._make_api_request` (twitch.py lines 67-111).  `o1` is the
OAuth outcome used by the proactive `_ensure_valid_token` call, `o2` the one
used by the reactive refresh after a 401, `r1` the first GET's outcome and
`r2` the retried GET's outcome.  On 200 the body is returned; on 401 the
token is refreshed once and the request retried once; 429 and every other
status, as well as exceptions, yield `None`. -/
def make_api_request (now : Int) (o1 o2 : OauthOutcome) (r1 r2 : ReqOutcome)
    (endpoint : String) (st : TokenState) : ApiCall :=
  let s1 := ensure_valid_token now o1 st
  if s1.ok = false then { st := s1.st, result := none, events := s1.events }
  else
    match r1 with
    | .exc => { st := s1.st, result := none, events := s1.events ++ [.apiGet endpoint] }
    | .resp r =>
      if r.status = 200 then
        { st := s1.st, result := some r.body, events := s1.events ++ [.apiGet endpoint] }
      else if r.status = 401 then
        let s2 := get_app_access_token now o2 s1.st
        if s2.ok then
          match r2 with
          | .exc =>
            { st := s2.st, result := none
              events := s1.events ++ [.apiGet endpoint] ++ s2.events ++ [.apiGet endpoint] }
          | .resp rr =>
            if rr.status = 200 then
              { st := s2.st, result := some rr.body
                events := s1.events ++ [.apiGet endpoint] ++ s2.events ++ [.apiGet endpoint] }
            else
              { st := s2.st, result := none
                events := s1.events ++ [.apiGet endpoint] ++ s2.events ++ [.apiGet endpoint] }
        else
          { st := s2.st, result := none
            events := s1.events ++ [.apiGet endpoint] ++ s2.events }
      else { st := s1.st, result := none, events := s1.events ++ [.apiGet endpoint] }

/-! ## TwitchService: stream lookups -/

/-- Embedding of `TwitchService.get_stream_data` (twitch.py lines 126-138) applied to the
value `_make_api_request('streams', ...)` returned: `response['data'][0]`
when the response arrived and its `data` array is non-empty, otherwise
`None`.  In particular a failed request (`None` response) and an offline
stream (empty `data`) are indistinguishable in the return value. -/
def get_stream_data (resp : Option HelixResponse) : Option StreamData :=
  match resp with
  | some r => if r.data = [] then none else r.data.head?
  | none => none

/-- The per-chunk contribution inside `get_multiple_streams`: the `data`
array of a successful response (skipped when empty or when the request
failed). -/
def chunkContrib (resp : Option HelixResponse) : List StreamData :=
  match resp with
  | some r => if r.data = [] then [] else r.data
  | none => []

/-- The chunking `[usernames[i:i+100] for i in range(0, len(usernames), 100)]`
of `get_multiple_streams` (twitch.py line 147): consecutive slices of at
most 100 names. -/
def username_chunks (l : List String) : List (List String) :=
  if h : l = [] then [] else l.take 100 :: username_chunks (l.drop 100)
termination_by l.length
decreasing_by
  rw [List.length_drop]
  exact Nat.sub_lt (List.length_pos.mpr h) (by norm_num)

/-- Accumulation loop of `get_multiple_streams` (twitch.py lines 150-155):
the i-th chunk's request yields `outcomes i`; each successful non-empty
response extends the accumulator. -/
def chunkLoop (outcomes : Nat → Option HelixResponse) :
    Nat → List (List String) → List (List StreamData)
  | _, [] => []
  | i, _chunk :: rest => chunkContrib (outcomes i) :: chunkLoop outcomes (i + 1) rest

/-- Embedding of `TwitchService.get_multiple_streams` (twitch.py lines 140-161): empty
input short-circuits to `[]`; otherwise the concatenation, in chunk order,
of each chunk's contribution. -/
def get_multiple_streams (outcomes : Nat → Option HelixResponse)
    (usernames : List String) : List StreamData :=
  if usernames = [] then []
  else (chunkLoop outcomes 0 (username_chunks usernames)).flatten

/-- The request parameters issued by `get_multiple_streams`, one per chunk:
the chunk's names lowercased (twitch.py line 151). -/
def multiple_streams_requests (usernames : List String) : List (List String) :=
  if usernames = [] then []
  else (username_chunks usernames).map (fun c => c.map pyLower)

/-! ## Notification rendering (`src/bot.py` lines 200-216, `src/config.py`) -/

/-- The opening brace character of a placeholder, written by code point. -/
def obrace : Char := '\x7b'

/-- The closing brace character of a placeholder, written by code point. -/
def cbrace : Char := '\x7d'

/-- Named-field substitution of Python's `str.format` as used by the bot:
scan the template; outside a field a plain character is copied and a stray
closing brace is an error; inside a field the name is accumulated until the
closing brace and then resolved through `f` (an unknown name raises
`KeyError`, modelled as `none`).  Conversion and format-spec syntax is not
modelled; the repository's templates use none. -/
def renderGo (f : String → Option String) : Bool → List Char → List Char → Option (List Char)
  | false, _, [] => some []
  | true, _, [] => none
  | false, _, c :: rest =>
    if c = obrace then renderGo f true [] rest
    else if c = cbrace then none
    else (renderGo f false [] rest).map (fun t => c :: t)
  | true, acc, c :: rest =>
    if c = cbrace then
      match f (String.mk acc) with
      | some v => (renderGo f false [] rest).map (fun t => v.data ++ t)
      | none => none
    else renderGo f true (acc ++ [c]) rest

/-- Embedding of `template.format(streamer=..., title=..., game=..., url=...)`:
substitution over the template string, `none` when `format` would raise. -/
def pyFormat (template : String) (f : String → Option String) : Option String :=
  (renderGo f false [] template.data).map String.mk

/-- The keyword arguments passed to `format` in `send_live_notification`. -/
def fieldValues (streamer title game url : String) : String → Option String :=
  fun name =>
    if name = "streamer" then some streamer
    else if name = "title" then some title
    else if name = "game" then some game
    else if name = "url" then some url
    else none

/-- The constant `config.DEFAULT_NOTIFICATION_MESSAGE` (config.py line 11). -/
def DEFAULT_NOTIFICATION_MESSAGE : String :=
  "🔴 {streamer} is now live! Playing {game} - {title} {url}"

/-- The message computed by `send_live_notification` (bot.py lines 204-216):
the guild's custom template for this streamer, else the default template,
formatted with the streamer name, the snapshot's title and category with
their fallbacks (`'No title'`, `'No category'`), and the stream URL.
`none` when `format` raises (the surrounding `except` then swallows the
error and nothing is sent). -/
def notification_message (gd : GuildData) (streamer : String) (d : StreamData) : Option String :=
  let tmpl := (dictGet gd.custom_messages streamer).getD DEFAULT_NOTIFICATION_MESSAGE
  pyFormat tmpl
    (fieldValues streamer (d.title.getD "No title") (d.game_name.getD "No category")
      ("https://twitch.tv/" ++ streamer))

/-! ## The polling cycle (`src/bot.py` lines 153-198) -/

/-- The key `stream_key = f"{guild_id}_{streamer_name}"` (bot.py line 180). -/
def streamKey (guild_id : Int) (streamer_name : String) : String :=
  toString guild_id ++ "_" ++ streamer_name

/-- Primitive events of one polling cycle, in program order: a
`live_streams.add`, a `live_streams.discard`, the production of a
notification event (the call of `send_live_notification`), and one delivery
attempt (`channel.send`) with its outcome. -/
inductive Ev where
  | trackerInsert (key : String)
  | trackerDiscard (key : String)
  | notify (key : String)
  | deliver (key : String) (ok : Bool)
deriving DecidableEq, Repr

/-- Number of notification events in a trace. -/
def countNotify (evs : List Ev) : Nat :=
  (evs.filter (fun e => match e with | .notify _ => true | _ => false)).length

/-- Number of delivery attempts in a trace. -/
def countDeliver (evs : List Ev) : Nat :=
  (evs.filter (fun e => match e with | .deliver _ _ => true | _ => false)).length

/-- Embedding of `send_live_notification` (bot.py lines 200-244) as a trace: when the
message renders, exactly one `channel.send` is attempted with outcome
`dOk`; a delivery failure is caught and logged, with no retry and no other
effect.  When rendering raises, the `except` swallows it and no send
happens. -/
def send_live_notification (dOk : Bool) (gd : GuildData) (streamer : String)
    (d : StreamData) (key : String) : List Ev :=
  match notification_message gd streamer d with
  | none => []
  | some _ => [Ev.deliver key dOk]

/-- The truthiness test `stream_data and stream_data.get('type') == 'live'`
(bot.py line 182). -/
def obsIsLive : Option StreamData → Bool
  | some d => decide (d.type = some "live")
  | none => false

/-- The body of the per-streamer loop of `check_streams` (bot.py lines
177-195) for one streamer, given the value `get_stream_data` returned:
live and untracked — add the key, then send the notification; live and
tracked — nothing; otherwise — discard the key.  A lookup failure reaches
this code as `None` and therefore takes the discard branch. -/
def checkStreamerStep (dOk : Bool) (gd : GuildData) (gid : Int) (s : String)
    (sd : Option StreamData) (ls : Finset String) : Finset String × List Ev :=
  let key := streamKey gid s
  match sd with
  | some d =>
    if d.type = some "live" then
      if key ∈ ls then (ls, [])
      else (insert key ls,
        [Ev.trackerInsert key, Ev.notify key] ++ send_live_notification dOk gd s d key)
    else (ls.erase key, [Ev.trackerDiscard key])
  | none => (ls.erase key, [Ev.trackerDiscard key])

/-- The external collaborators one cycle of `check_streams` consults:
whether `bot.get_guild` finds the guild, the stored guild document, whether
`guild.get_channel` finds the notification channel, the result of
`get_stream_data` per (guild, streamer), and the delivery outcome per
(guild, streamer). -/
structure CycleEnv where
  guildPresent : Int → Bool
  guildData : Int → Option GuildData
  channelPresent : Int → Int → Bool
  lookup : Int → String → Option StreamData
  deliverOk : Int → String → Bool

/-- The `for streamer_name in guild_data['streamers']` loop (bot.py lines
177-195), threading the tracker and concatenating the traces. -/
def runStreamers (env : CycleEnv) (gid : Int) (gd : GuildData) :
    List String → Finset String → Finset String × List Ev
  | [], ls => (ls, [])
  | s :: rest, ls =>
    let r1 := checkStreamerStep (env.deliverOk gid s) gd gid s (env.lookup gid s) ls
    let r2 := runStreamers env gid gd rest r1.1
    (r2.1, r1.2 ++ r2.2)

/-- The per-guild part of `check_streams` (bot.py lines 159-195): the guild
is skipped when the bot is not in it, when it has no stored data or no
streamers, when no notification channel is configured (`None` or the falsy
id `0`), or when the channel object cannot be found. -/
def checkGuild (env : CycleEnv) (gid : Int) (ls : Finset String) : Finset String × List Ev :=
  if env.guildPresent gid = false then (ls, [])
  else
    match env.guildData gid with
    | none => (ls, [])
    | some gd =>
      if gd.streamers = [] then (ls, [])
      else
        match gd.notification_channel with
        | none => (ls, [])
        | some ch =>
          if ch = 0 then (ls, [])
          else if env.channelPresent gid ch = false then (ls, [])
          else runStreamers env gid gd gd.streamers ls

/-- One full cycle of `check_streams` over the guild id list returned by
`db.get_all_guilds`. -/
def checkStreamsCycle (env : CycleEnv) : List Int → Finset String → Finset String × List Ev
  | [], ls => (ls, [])
  | g :: rest, ls =>
    let r1 := checkGuild env g ls
    let r2 := checkStreamsCycle env rest r1.1
    (r2.1, r1.2 ++ r2.2)

/-! ## Observation sequences for a fixed key -/

/-- One cycle's observation for a fixed (guild, streamer) pair, as the
claims classify it: the stream was seen live with snapshot `d`, it was seen
offline, or the lookup failed. -/
inductive Obs where
  | live (d : StreamData)
  | offline
  | failed
deriving DecidableEq, Repr

/-- What the Helix request underlying `get_stream_data` produces for each
observation: a live stream arrives as a response whose `data` array holds
its snapshot, an offline stream as a 200 response with an empty `data`
array, and a failure as `None` from `_make_api_request`. -/
def obsResp : Obs → Option HelixResponse
  | .live d => some ⟨[d]⟩
  | .offline => some ⟨[]⟩
  | .failed => none

/-- The value `get_stream_data` hands to `check_streams` for an
observation. -/
def obsResult (o : Obs) : Option StreamData :=
  get_stream_data (obsResp o)

/-- Whether `check_streams` classifies the observation as live. -/
def obsEffLive (o : Obs) : Bool :=
  obsIsLive (obsResult o)

/-- Repeated cycles applied to one fixed (guild, streamer) pair: fold the
per-streamer step over a sequence of observations. -/
def runObs (dOk : Bool) (gd : GuildData) (gid : Int) (s : String) :
    Finset String → List Obs → Finset String × List Ev
  | ls, [] => (ls, [])
  | ls, o :: rest =>
    let r1 := checkStreamerStep dOk gd gid s (obsResult o) ls
    let r2 := runObs dOk gd gid s r1.1 rest
    (r2.1, r1.2 ++ r2.2)

/-- Number of offline-to-live edges of a boolean (live?) sequence, given
the previous value. -/
def countRises : Bool → List Bool → Nat
  | _, [] => 0
  | prev, b :: rest => (if b && !prev then 1 else 0) + countRises b rest

/-- Modelled from the spec: the claimed notification count, in which a
failed lookup is "a no-op and not an edge" — failed observations are
dropped from the sequence before counting offline-to-live edges.  This is
the reading to compare against the code's behaviour. -/
def specObsState : Obs → Option Bool
  | .live d => some (decide (d.type = some "live"))
  | .offline => some false
  | .failed => none

/-- Modelled from the spec: number of notifications the claim predicts for
an observation sequence started from an empty tracker. -/
def specEdgeCount (obsList : List Obs) : Nat :=
  countRises false (obsList.filterMap specObsState)

/-! ## Database backends: `remove_streamer` -/

namespace DatabaseService

/-- Embedding of `DatabaseService.remove_streamer` (database.py lines 72-90), the
in-memory backend: unknown guild returns `False`; otherwise the name is
lowercased, and only when it is monitored the first matching list entry is
removed (`list.remove`), its custom-message entry deleted if present, and
`True` returned. -/
def remove_streamer (guilds : Guilds) (gid : Int) (name : String) : Guilds × Bool :=
  match guilds gid with
  | none => (guilds, false)
  | some gd =>
    let nm := pyLower name
    if nm ∈ gd.streamers then
      let gd' : GuildData :=
        { streamers := gd.streamers.erase nm
          notification_channel := gd.notification_channel
          custom_messages := gd.custom_messages.filter (fun p => !decide (p.1 = nm)) }
      (fun g => if g = gid then some gd' else guilds g, true)
    else (guilds, false)

end DatabaseService

namespace MongoDBService

/-- Embedding of `MongoDBService.remove_streamer` (mongodb.py lines 137-157), the MongoDB
backend: one `update_one` with a `$pull` of the lowercased name from
`streamers` and a `$unset` of its `custom_messages` entry; `True` exactly
when the update modified the document, i.e. when the name was monitored
*or* a custom-message entry under the name existed. -/
def remove_streamer (guilds : Guilds) (gid : Int) (name : String) : Guilds × Bool :=
  let nm := pyLower name
  match guilds gid with
  | none => (guilds, false)
  | some gd =>
    let modified := decide (nm ∈ gd.streamers) || (dictGet gd.custom_messages nm).isSome
    if modified then
      let gd' : GuildData :=
        { streamers := gd.streamers.filter (fun s => !decide (s = nm))
          notification_channel := gd.notification_channel
          custom_messages := gd.custom_messages.filter (fun p => !decide (p.1 = nm)) }
      (fun g => if g = gid then some gd' else guilds g, true)
    else (guilds, false)

end MongoDBService

/-! ## Concrete fixtures used by counterexamples and witnesses -/

/-- A guild document with no custom messages (the default template is then
used). -/
def gdPlain : GuildData :=
  { streamers := ["alice"], notification_channel := some 5, custom_messages := [] }

/-- A live-stream snapshot carrying no title and no category. -/
def sdLiveBare : StreamData :=
  { type := some "live", title := none, game_name := none
    viewer_count := none, thumbnail_url := none }

/-- A live-stream snapshot with a title but no category. -/
def sdLiveTitled : StreamData :=
  { type := some "live", title := some "T", game_name := none
    viewer_count := none, thumbnail_url := none }

/-- A guild document giving streamer `alice` the custom template of the
spec's rendering scenario. -/
def gdCustom : GuildData :=
  { streamers := ["alice"], notification_channel := some 5
    custom_messages := [("alice", "{streamer} live: {title} ({game}) {url}")] }

/-- A guild document monitoring nobody but holding a stray custom-message
entry for `alice`. -/
def gdStray : GuildData :=
  { streamers := [], notification_channel := none, custom_messages := [("alice", "hi")] }

/-- A guild collection whose guild 1 is `gdStray`. -/
def guildsStray : Guilds := fun g => if g = 1 then some gdStray else none

/-- A guild document monitoring `alice` and `bob`, with a custom message
for each. -/
def gdTwo : GuildData :=
  { streamers := ["alice", "bob"], notification_channel := some 9
    custom_messages := [("alice", "ma"), ("bob", "mb")] }

/-- A guild collection whose guild 1 is `gdTwo`. -/
def guildsTwo : Guilds := fun g => if g = 1 then some gdTwo else none

/-- Cycle environment for the isolation witness: guild 1 monitors `ann`
whose lookup fails; guild 2 monitors `amy` (lookup fails) and `bob` (seen
live). -/
def envIso : CycleEnv :=
  { guildPresent := fun _ => true
    guildData := fun g =>
      if g = 1 then some { streamers := ["ann"], notification_channel := some 7
                           custom_messages := [] }
      else if g = 2 then some { streamers := ["amy", "bob"], notification_channel := some 8
                                custom_messages := [] }
      else none
    channelPresent := fun _ _ => true
    lookup := fun g s => if g = 2 ∧ s = "bob" then some sdLiveBare else none
    deliverOk := fun _ _ => true }

/-! ## Template segments

A well-formed template is a sequence of literal pieces (without brace
characters) and the four named placeholders.  `segsChars` flattens such a
sequence to the template text; `segsVal` flattens it to the rendered text
for given field values.  These are used to state the rendering claim for
every template built from the four placeholders. -/

/-- One segment of a notification template. -/
inductive TSeg where
  | lit (s : String)
  | phStreamer
  | phTitle
  | phGame
  | phUrl
deriving DecidableEq, Repr

/-- The template text of one segment. -/
def TSeg.flat : TSeg → String
  | .lit s => s
  | .phStreamer => "{streamer}"
  | .phTitle => "{title}"
  | .phGame => "{game}"
  | .phUrl => "{url}"

/-- The rendered text of one segment. -/
def TSeg.value (streamer title game url : String) : TSeg → String
  | .lit s => s
  | .phStreamer => streamer
  | .phTitle => title
  | .phGame => game
  | .phUrl => url

/-- The template text of a segment sequence, as characters. -/
def segsChars (segs : List TSeg) : List Char :=
  (segs.map (fun s => s.flat.data)).flatten

/-- The rendered text of a segment sequence, as characters. -/
def segsVal (streamer title game url : String) (segs : List TSeg) : List Char :=
  (segs.map (fun s => (s.value streamer title game url).data)).flatten

/-- A literal segment may not contain brace characters (Python's `format`
treats those as field syntax). -/
def TSeg.ok : TSeg → Prop
  | .lit s => obrace ∉ s.data ∧ cbrace ∉ s.data
  | _ => True

instance : DecidablePred TSeg.ok := fun seg => by
  unfold TSeg.ok
  cases seg <;> infer_instance

/-! ## Helper lemmas -/

theorem countNotify_append (a b : List Ev) :
    countNotify (a ++ b) = countNotify a + countNotify b := by
  simp [countNotify, List.filter_append]

theorem countNotify_send (dOk : Bool) (gd : GuildData) (s : String) (d : StreamData)
    (key : String) : countNotify (send_live_notification dOk gd s d key) = 0 := by
  unfold send_live_notification
  cases notification_message gd s d <;> rfl

theorem countNotify_nil : countNotify [] = 0 := rfl

theorem countNotify_discard (k : String) : countNotify [Ev.trackerDiscard k] = 0 := rfl

theorem countNotify_insert_notify (k : String) :
    countNotify [Ev.trackerInsert k, Ev.notify k] = 1 := rfl

theorem countNotify_cons_insert (k : String) (evs : List Ev) :
    countNotify (Ev.trackerInsert k :: evs) = countNotify evs := rfl

theorem countNotify_cons_notify (k : String) (evs : List Ev) :
    countNotify (Ev.notify k :: evs) = countNotify evs + 1 := rfl

theorem obsResult_failed : obsResult Obs.failed = none := rfl

theorem obsResult_offline : obsResult Obs.offline = none := rfl

theorem obsResult_live (d : StreamData) : obsResult (Obs.live d) = some d := rfl

/-! ## Claim C1 — failed lookups and tracker state -/

/-- Claim C1 as stated is false: a lookup failure reaches `check_streams`
as `None`, which takes the same branch as an offline observation and calls
`live_streams.discard`.  With the key tracked before the cycle, the key's
membership changes. -/
theorem claim1_counterexample :
    streamKey 1 "alice" ∈ ({streamKey 1 "alice"} : Finset String) ∧
    streamKey 1 "alice" ∉ (checkStreamerStep true gdPlain 1 "alice" none
      {streamKey 1 "alice"}).1 := by
  refine ⟨Finset.mem_singleton_self _, ?_⟩
  simp [checkStreamerStep]

/-- C1, amended: a cycle whose lookup for the key fails emits no
notification and never inserts the key, and it leaves an absent key absent;
but it removes a present key from the tracker (the failure is processed
exactly like an offline observation), so the tracker after the cycle is
`ls.erase key`. -/
theorem claim1_failed_lookup_discards (dOk : Bool) (gd : GuildData) (gid : Int)
    (s : String) (ls : Finset String) :
    countNotify (checkStreamerStep dOk gd gid s none ls).2 = 0 ∧
    (checkStreamerStep dOk gd gid s none ls).1 = ls.erase (streamKey gid s) ∧
    (streamKey gid s ∉ ls → (checkStreamerStep dOk gd gid s none ls).1 = ls) := by
  refine ⟨rfl, rfl, fun h => ?_⟩
  simpa [checkStreamerStep] using Finset.erase_eq_self.mpr h

/-- Witness for the amended C1 at a concrete input. -/
theorem claim1_witness :
    streamKey 1 "alice" ∉ (∅ : Finset String) ∧
    (checkStreamerStep true gdPlain 1 "alice" none ∅).1 = ∅ :=
  ⟨Finset.not_mem_empty _,
    (claim1_failed_lookup_discards true gdPlain 1 "alice" ∅).2.2 (Finset.not_mem_empty _)⟩

/-! ## Claim C3 — consecutive live observations are idempotent -/

/-- Claim C3: a cycle that observes a stream as live while its key is
already tracked performs no action at all: the tracker is returned
unchanged and the trace is empty (no notification). -/
theorem claim3_live_idempotent (dOk : Bool) (gd : GuildData) (gid : Int) (s : String)
    (d : StreamData) (ls : Finset String)
    (hlive : d.type = some "live") (hmem : streamKey gid s ∈ ls) :
    checkStreamerStep dOk gd gid s (some d) ls = (ls, []) := by
  simp [checkStreamerStep, hlive, hmem]

/-- Witness for C3 at a concrete input. -/
theorem claim3_witness :
    sdLiveBare.type = some "live" ∧
    streamKey 1 "alice" ∈ ({streamKey 1 "alice"} : Finset String) ∧
    checkStreamerStep true gdPlain 1 "alice" (some sdLiveBare) {streamKey 1 "alice"} =
      ({streamKey 1 "alice"}, []) :=
  ⟨rfl, Finset.mem_singleton_self _,
    claim3_live_idempotent true gdPlain 1 "alice" sdLiveBare _ rfl
      (Finset.mem_singleton_self _)⟩

/-! ## Claim C4 — tracker insertion committed before delivery -/

/-- Claim C4: on a detected offline-to-live transition the step's trace is
exactly `[insert, notify, deliver]` for either delivery outcome: the
tracker insertion precedes the single delivery attempt, there is exactly
one attempt (no retry), and the tracker contains the key afterwards even
when delivery failed (no rollback). -/
theorem claim4_insert_before_delivery (dOk : Bool) (gd : GuildData) (gid : Int)
    (s : String) (d : StreamData) (ls : Finset String) (msg : String)
    (hlive : d.type = some "live") (hmem : streamKey gid s ∉ ls)
    (hmsg : notification_message gd s d = some msg) :
    checkStreamerStep dOk gd gid s (some d) ls =
      (insert (streamKey gid s) ls,
        [Ev.trackerInsert (streamKey gid s), Ev.notify (streamKey gid s),
         Ev.deliver (streamKey gid s) dOk]) ∧
    streamKey gid s ∈ (checkStreamerStep dOk gd gid s (some d) ls).1 ∧
    countDeliver (checkStreamerStep dOk gd gid s (some d) ls).2 = 1 := by
  have hstep : checkStreamerStep dOk gd gid s (some d) ls =
      (insert (streamKey gid s) ls,
        [Ev.trackerInsert (streamKey gid s), Ev.notify (streamKey gid s),
         Ev.deliver (streamKey gid s) dOk]) := by
    simp [checkStreamerStep, send_live_notification, hlive, hmem, hmsg]
  refine ⟨hstep, ?_, ?_⟩ <;> rw [hstep]
  · exact Finset.mem_insert_self _ _
  · rfl

/-- Witness for C4 at a concrete input with failing delivery. -/
theorem claim4_witness :
    sdLiveBare.type = some "live" ∧
    streamKey 1 "alice" ∉ (∅ : Finset String) ∧
    notification_message gdPlain "alice" sdLiveBare =
      some "🔴 alice is now live! Playing No category - No title https://twitch.tv/alice" ∧
    checkStreamerStep false gdPlain 1 "alice" (some sdLiveBare) ∅ =
      (insert (streamKey 1 "alice") ∅,
        [Ev.trackerInsert (streamKey 1 "alice"), Ev.notify (streamKey 1 "alice"),
         Ev.deliver (streamKey 1 "alice") false]) :=
  ⟨rfl, Finset.not_mem_empty _, by decide,
    (claim4_insert_before_delivery false gdPlain 1 "alice" sdLiveBare ∅
      "🔴 alice is now live! Playing No category - No title https://twitch.tv/alice"
      rfl (Finset.not_mem_empty _) (by decide)).1⟩

/-! ## Claim C2 — notification count over observation sequences -/

/-- Claim C2 as stated is false: with the observation sequence live,
lookup-failed, live for one key from an empty tracker, the code emits two
notifications, while the claimed count (failed lookups skipped as no-ops)
is one edge. -/
theorem claim2_counterexample :
    countNotify (runObs true gdPlain 1 "alice" ∅
      [Obs.live sdLiveBare, Obs.failed, Obs.live sdLiveBare]).2 = 2 ∧
    specEdgeCount [Obs.live sdLiveBare, Obs.failed, Obs.live sdLiveBare] = 1 := by
  decide

/-- C2, amended: for every observation sequence applied to a fixed key from
an empty tracker, the number of notification events equals the number of
offline-to-live edges of the sequence in which a failed lookup counts as an
offline observation (it resets the edge detector rather than being
skipped). -/
theorem claim2_edge_count (dOk : Bool) (gd : GuildData) (gid : Int) (s : String)
    (obsList : List Obs) :
    countNotify (runObs dOk gd gid s ∅ obsList).2 =
      countRises false (obsList.map obsEffLive) := by
  suffices H : ∀ (l : List Obs) (ls : Finset String),
      countNotify (runObs dOk gd gid s ls l).2 =
        countRises (decide (streamKey gid s ∈ ls)) (l.map obsEffLive) by
    simpa using H obsList ∅
  intro l
  induction l with
  | nil => intro ls; rfl
  | cons o rest ih =>
    intro ls
    simp only [runObs, countNotify_append, List.map_cons]
    cases o with
    | failed =>
      have hb : obsEffLive Obs.failed = false := rfl
      rw [hb]
      have hstep : checkStreamerStep dOk gd gid s (obsResult Obs.failed) ls =
          (ls.erase (streamKey gid s), [Ev.trackerDiscard (streamKey gid s)]) := rfl
      rw [hstep]
      have hmem : (decide (streamKey gid s ∈ ls.erase (streamKey gid s))) = false := by
        simp [Finset.not_mem_erase]
      simp [countNotify_discard, countRises, ih, hmem]
    | offline =>
      have hb : obsEffLive Obs.offline = false := rfl
      rw [hb]
      have hstep : checkStreamerStep dOk gd gid s (obsResult Obs.offline) ls =
          (ls.erase (streamKey gid s), [Ev.trackerDiscard (streamKey gid s)]) := rfl
      rw [hstep]
      have hmem : (decide (streamKey gid s ∈ ls.erase (streamKey gid s))) = false := by
        simp [Finset.not_mem_erase]
      simp [countNotify_discard, countRises, ih, hmem]
    | live d =>
      rw [obsResult_live]
      by_cases hl : d.type = some "live"
      · have hb : obsEffLive (Obs.live d) = true := by
          simp [obsEffLive, obsResult, obsResp, get_stream_data, obsIsLive, hl]
        rw [hb]
        by_cases hm : streamKey gid s ∈ ls
        · have hstep : checkStreamerStep dOk gd gid s (some d) ls = (ls, []) := by
            simp [checkStreamerStep, hl, hm]
          rw [hstep]
          simp [countNotify_nil, countRises, ih, hm]
        · have hstep : checkStreamerStep dOk gd gid s (some d) ls =
              (insert (streamKey gid s) ls,
                [Ev.trackerInsert (streamKey gid s), Ev.notify (streamKey gid s)] ++
                  send_live_notification dOk gd s d (streamKey gid s)) := by
            simp [checkStreamerStep, hl, hm]
          rw [hstep]
          have hmem : (decide (streamKey gid s ∈ insert (streamKey gid s) ls)) = true := by
            simp
          simp [countNotify_append, countNotify_cons_insert, countNotify_cons_notify,
            countNotify_send, countRises, ih, hm, hmem]
      · have hb : obsEffLive (Obs.live d) = false := by
          simp [obsEffLive, obsResult, obsResp, get_stream_data, obsIsLive, hl]
        rw [hb]
        have hstep : checkStreamerStep dOk gd gid s (some d) ls =
            (ls.erase (streamKey gid s), [Ev.trackerDiscard (streamKey gid s)]) := by
          simp [checkStreamerStep, hl]
        rw [hstep]
        have hmem : (decide (streamKey gid s ∈ ls.erase (streamKey gid s))) = false := by
          simp [Finset.not_mem_erase]
        simp [countNotify_discard, countRises, ih, hmem]

/-! ## Claim C5 — failures are isolated per account -/

/-- Claim C5: in one cycle over two guilds, guild `g1` monitoring `a1`
whose lookup fails and guild `g2` monitoring `a2` (lookup fails) and `b`
(observed live and untracked), the notification event for `b` is still
produced — failed lookups, in the same guild or in another guild, do not
prevent it. -/
theorem claim5_lookup_isolation (env : CycleEnv) (g1 g2 : Int) (a1 a2 b : String)
    (gd1 gd2 : GuildData) (ch1 ch2 : Int) (d : StreamData) (ls : Finset String)
    (hp1 : env.guildPresent g1 = true) (hd1 : env.guildData g1 = some gd1)
    (hs1 : gd1.streamers = [a1]) (hc1 : gd1.notification_channel = some ch1)
    (hc1z : ch1 ≠ 0) (hcp1 : env.channelPresent g1 ch1 = true)
    (hl1 : env.lookup g1 a1 = none)
    (hp2 : env.guildPresent g2 = true) (hd2 : env.guildData g2 = some gd2)
    (hs2 : gd2.streamers = [a2, b]) (hc2 : gd2.notification_channel = some ch2)
    (hc2z : ch2 ≠ 0) (hcp2 : env.channelPresent g2 ch2 = true)
    (hl2 : env.lookup g2 a2 = none)
    (hlb : env.lookup g2 b = some d) (hlive : d.type = some "live")
    (hb0 : streamKey g2 b ∉ ls) :
    Ev.notify (streamKey g2 b) ∈ (checkStreamsCycle env [g1, g2] ls).2 := by
  have hguild1 : checkGuild env g1 ls =
      (ls.erase (streamKey g1 a1), [Ev.trackerDiscard (streamKey g1 a1)]) := by
    simp [checkGuild, hp1, hd1, hs1, hc1, hc1z, hcp1, runStreamers, hl1, checkStreamerStep]
  have hbmem : streamKey g2 b ∉
      (ls.erase (streamKey g1 a1)).erase (streamKey g2 a2) := by
    intro hmem
    exact hb0 (Finset.mem_of_mem_erase (Finset.mem_of_mem_erase hmem))
  have hguild2 : Ev.notify (streamKey g2 b) ∈
      (checkGuild env g2 (ls.erase (streamKey g1 a1))).2 := by
    simp [checkGuild, hp2, hd2, hs2, hc2, hc2z, hcp2, runStreamers, hl2, hlb,
      checkStreamerStep, hlive, hbmem]
  simp only [checkStreamsCycle, hguild1]
  simp only [List.mem_append]
  right
  left
  exact hguild2

/-- Witness for C5 at the concrete environment `envIso`. -/
theorem claim5_witness :
    envIso.lookup 1 "ann" = none ∧ envIso.lookup 2 "amy" = none ∧
    envIso.lookup 2 "bob" = some sdLiveBare ∧
    Ev.notify (streamKey 2 "bob") ∈ (checkStreamsCycle envIso [1, 2] ∅).2 :=
  ⟨by decide, by decide, by decide,
    claim5_lookup_isolation envIso 1 2 "ann" "amy" "bob"
      { streamers := ["ann"], notification_channel := some 7, custom_messages := [] }
      { streamers := ["amy", "bob"], notification_channel := some 8, custom_messages := [] }
      7 8 sdLiveBare ∅ rfl (by decide) rfl rfl (by decide) rfl (by decide) rfl (by decide)
      rfl rfl (by decide) rfl (by decide) (by decide) rfl (Finset.not_mem_empty _)⟩

/-! ## Claim C6 — one refresh and one retry on a 401 -/

/-- Claim C6: a request answered 401 triggers exactly one credential fetch;
when the refresh succeeds the request is retried exactly once (the trace is
GET, fetch, GET) and the call's result is the retry's 200 body or `None`;
when the refresh fails there is no retry and the result is `None`.  In
every case there are no further retries. -/
theorem claim6_auth_retry_once (now : Int) (st : TokenState) (o1 o2 : OauthOutcome)
    (r1 : ApiResponse) (r2 : ReqOutcome) (endpoint : String)
    (hfresh : tokenStale now st = false) (h401 : r1.status = 401) :
    (make_api_request now o1 o2 (.resp r1) r2 endpoint st).events =
      [TEv.apiGet endpoint, TEv.tokenFetch] ++
        (if (get_app_access_token now o2 st).ok = true then [TEv.apiGet endpoint] else []) ∧
    countFetch (make_api_request now o1 o2 (.resp r1) r2 endpoint st).events = 1 ∧
    ((get_app_access_token now o2 st).ok = false →
      (make_api_request now o1 o2 (.resp r1) r2 endpoint st).result = none) ∧
    (∀ rr : ApiResponse, r2 = .resp rr → (get_app_access_token now o2 st).ok = true →
      (make_api_request now o1 o2 (.resp r1) r2 endpoint st).result =
        (if rr.status = 200 then some rr.body else none)) ∧
    (r2 = .exc → (get_app_access_token now o2 st).ok = true →
      (make_api_request now o1 o2 (.resp r1) r2 endpoint st).result = none) := by
  have hget : ∀ o' : OauthOutcome, (get_app_access_token now o' st).events = [TEv.tokenFetch] := by
    intro o'
    cases o' with
    | resp r => by_cases h : r.status = 200 <;> simp [get_app_access_token, h]
    | exc => rfl
  have hens : ensure_valid_token now o1 st = { st := st, ok := true, events := [] } := by
    simp [ensure_valid_token, hfresh]
  by_cases hok : (get_app_access_token now o2 st).ok = true
  · cases r2 with
    | resp rr =>
      by_cases h200 : rr.status = 200
      · refine ⟨?_, ?_, ?_, ?_, ?_⟩ <;>
          simp [make_api_request, hens, h401, hok, h200, hget, countFetch]
      · refine ⟨?_, ?_, ?_, ?_, ?_⟩ <;>
          simp [make_api_request, hens, h401, hok, h200, hget, countFetch]
    | exc =>
      refine ⟨?_, ?_, ?_, ?_, ?_⟩ <;>
        simp [make_api_request, hens, h401, hok, hget, countFetch]
  · have hok' : (get_app_access_token now o2 st).ok = false := by
      cases hko : (get_app_access_token now o2 st).ok
      · rfl
      · exact absurd hko hok
    cases r2 with
    | resp rr =>
      refine ⟨?_, ?_, ?_, ?_, ?_⟩ <;>
        simp [make_api_request, hens, h401, hok', hget, countFetch]
    | exc =>
      refine ⟨?_, ?_, ?_, ?_, ?_⟩ <;>
        simp [make_api_request, hens, h401, hok', hget, countFetch]

/-- Witness for C6: valid token, first GET answered 401, successful
refresh, retry answered 200. -/
theorem claim6_witness :
    tokenStale 0 ⟨some "tok", some 100⟩ = false ∧
    (make_api_request 0 OauthOutcome.exc (OauthOutcome.resp ⟨200, "tok2", some 3600⟩)
      (ReqOutcome.resp ⟨401, ⟨[]⟩⟩) (ReqOutcome.resp ⟨200, ⟨[sdLiveBare]⟩⟩)
      "streams" ⟨some "tok", some 100⟩).events =
      [TEv.apiGet "streams", TEv.tokenFetch, TEv.apiGet "streams"] ∧
    (make_api_request 0 OauthOutcome.exc (OauthOutcome.resp ⟨200, "tok2", some 3600⟩)
      (ReqOutcome.resp ⟨401, ⟨[]⟩⟩) (ReqOutcome.resp ⟨200, ⟨[sdLiveBare]⟩⟩)
      "streams" ⟨some "tok", some 100⟩).result = some ⟨[sdLiveBare]⟩ := by
  have h := claim6_auth_retry_once 0 ⟨some "tok", some 100⟩ OauthOutcome.exc
    (OauthOutcome.resp ⟨200, "tok2", some 3600⟩) ⟨401, ⟨[]⟩⟩
    (ReqOutcome.resp ⟨200, ⟨[sdLiveBare]⟩⟩) "streams" (by decide) rfl
  refine ⟨by decide, ?_, ?_⟩
  · rw [h.1]
    decide
  · have := h.2.2.2.1 ⟨200, ⟨[sdLiveBare]⟩⟩ rfl (by decide)
    simpa using this

/-! ## Claim C7 — proactive refresh with a 60-unit margin -/

/-- Claim C7: `_ensure_valid_token` fetches a credential exactly when no
usable token is held or the stored margin-adjusted expiry has been reached;
a 200 token response with lifetime `e` sets the expiry to
`now + (e - 60)`, so the token counts as expired at time `t` exactly when
`t - now ≥ e - 60` has elapsed. -/
theorem claim7_token_refresh_margin (now t : Int) (st : TokenState) (o : OauthOutcome)
    (r : OauthResponse) (e : Int) :
    countFetch (ensure_valid_token now o st).events =
      (if tokenStale now st = true then 1 else 0) ∧
    (tokenStale now st = true ↔
      (pyFalsyStr st.access_token = true ∨ st.token_expires_at = none ∨
        ∃ ex, st.token_expires_at = some ex ∧ now ≥ ex)) ∧
    (r.status = 200 → r.expires_in = some e → r.access_token ≠ "" →
      (get_app_access_token now (.resp r) st).st.token_expires_at = some (now + (e - 60)) ∧
      (tokenStale t (get_app_access_token now (.resp r) st).st = true ↔ t - now ≥ e - 60)) := by
  have hget : ∀ o' : OauthOutcome, (get_app_access_token now o' st).events = [TEv.tokenFetch] := by
    intro o'
    cases o' with
    | resp rr => by_cases h : rr.status = 200 <;> simp [get_app_access_token, h]
    | exc => rfl
  refine ⟨?_, ?_, ?_⟩
  · by_cases hst : tokenStale now st = true
    · simp [ensure_valid_token, hst, hget, countFetch]
    · simp [ensure_valid_token, hst, countFetch]
  · rcases hte : st.token_expires_at with _ | ex <;>
      simp [tokenStale, hte, decide_eq_true_iff]
  · intro h200 hei hne
    constructor
    · simp [get_app_access_token, h200, hei]
    · simp [get_app_access_token, h200, hei, tokenStale, pyFalsyStr, hne,
        decide_eq_true_iff]
      omega

/-- Witness for C7: empty initial state forces a fetch; a 3600-second token
obtained at time 0 expires at 3540. -/
theorem claim7_witness :
    countFetch (ensure_valid_token 0 OauthOutcome.exc ⟨none, none⟩).events = 1 ∧
    (get_app_access_token 0 (OauthOutcome.resp ⟨200, "tok", some 3600⟩)
      ⟨none, none⟩).st.token_expires_at = some 3540 ∧
    tokenStale 3540 (get_app_access_token 0 (OauthOutcome.resp ⟨200, "tok", some 3600⟩)
      ⟨none, none⟩).st = true := by
  have h := claim7_token_refresh_margin 0 3540 ⟨none, none⟩ OauthOutcome.exc
    ⟨200, "tok", some 3600⟩ 3600
  have h3 := h.2.2 rfl rfl (by decide)
  refine ⟨?_, by simpa using h3.1, h3.2.mpr (by norm_num)⟩
  rw [h.1]
  decide

/-! ## Claim C8 — chunked bulk stream query -/

theorem username_chunks_nil : username_chunks [] = [] := by
  rw [username_chunks]
  simp

theorem username_chunks_flatten (l : List String) : (username_chunks l).flatten = l := by
  induction l using username_chunks.induct with
  | case1 => rw [username_chunks]; simp
  | case2 l h ih =>
    rw [username_chunks]
    simp [h, ih, List.take_append_drop]

theorem username_chunks_bounded (l : List String) (c : List String)
    (hc : c ∈ username_chunks l) : c.length ≤ 100 ∧ c ≠ [] := by
  induction l using username_chunks.induct with
  | case1 => rw [username_chunks] at hc; simp at hc
  | case2 l h ih =>
    rw [username_chunks] at hc
    simp only [h, dite_false, List.mem_cons] at hc
    rcases hc with rfl | hc
    · constructor
      · simpa using List.length_take_le 100 l
      · simp [List.take_eq_nil_iff, h]
    · exact ih hc

theorem chunkLoop_get (o : Nat → Option HelixResponse) :
    ∀ (cs : List (List String)) (k j : Nat),
      (chunkLoop o k cs)[j]? = (cs[j]?).map (fun _ => chunkContrib (o (k + j))) := by
  intro cs
  induction cs with
  | nil => intro k j; simp [chunkLoop]
  | cons c rest ih =>
    intro k j
    cases j with
    | zero => simp [chunkLoop]
    | succ j =>
      have hk : k + 1 + j = k + (j + 1) := by omega
      have hh := ih (k + 1) j
      rw [hk] at hh
      simpa [chunkLoop] using hh

/-- Claim C8: the bulk query splits its input into consecutive chunks of at
most 100 names whose concatenation is the input; the result is the
concatenation, in chunk order, of the per-chunk contributions; the j-th
contribution depends only on the j-th request's outcome and is empty when
that request fails, so one chunk's failure cannot invalidate the others;
one lowercased request is issued per chunk; and the empty input yields an
empty result. -/
theorem claim8_chunked_bulk_query (o : Nat → Option HelixResponse) (usernames : List String) :
    (∀ c ∈ username_chunks usernames, c.length ≤ 100) ∧
    (username_chunks usernames).flatten = usernames ∧
    get_multiple_streams o usernames = (chunkLoop o 0 (username_chunks usernames)).flatten ∧
    (∀ j : Nat, (chunkLoop o 0 (username_chunks usernames))[j]? =
      ((username_chunks usernames)[j]?).map (fun _ => chunkContrib (o j))) ∧
    (∀ j : Nat, o j = none → (chunkLoop o 0 (username_chunks usernames))[j]? =
      ((username_chunks usernames)[j]?).map (fun _ => ([] : List StreamData))) ∧
    multiple_streams_requests usernames =
      (username_chunks usernames).map (fun c => c.map pyLower) ∧
    get_multiple_streams o [] = [] := by
  refine ⟨fun c hc => (username_chunks_bounded usernames c hc).1,
    username_chunks_flatten usernames, ?_, ?_, ?_, ?_, rfl⟩
  · by_cases h : usernames = []
    · subst h
      simp [get_multiple_streams, username_chunks_nil, chunkLoop]
    · simp [get_multiple_streams, h]
  · intro j
    simpa using chunkLoop_get o (username_chunks usernames) 0 j
  · intro j hj
    have hh := chunkLoop_get o (username_chunks usernames) 0 j
    simpa [hj, chunkContrib] using hh
  · by_cases h : usernames = []
    · subst h
      simp [multiple_streams_requests, username_chunks_nil]
    · simp [multiple_streams_requests, h]

/-- Witness for C8 at a concrete two-name input forming one chunk. -/
theorem claim8_witness :
    (["A", "b"] : List String).length ≤ 100 ∧
    (username_chunks ["A", "b"]).flatten = ["A", "b"] ∧
    get_multiple_streams (fun _ => some ⟨[sdLiveBare]⟩) ["A", "b"] = [sdLiveBare] := by
  have hch : username_chunks ["A", "b"] = [["A", "b"]] := by
    rw [username_chunks]
    norm_num
    rw [username_chunks]
    simp
  have h := claim8_chunked_bulk_query (fun _ => some ⟨[sdLiveBare]⟩) ["A", "b"]
  refine ⟨h.1 ["A", "b"] (by rw [hch]; simp), h.2.1, ?_⟩
  rw [h.2.2.1, hch]
  rfl


/-! ## Claim C9 — placeholder substitution and fallbacks -/

/-- A run of brace-free characters is copied verbatim by the renderer. -/
theorem renderGo_lit_run (f : String → Option String) (cs rest : List Char)
    (h : ∀ c ∈ cs, c ≠ obrace ∧ c ≠ cbrace) :
    renderGo f false [] (cs ++ rest) = (renderGo f false [] rest).map (fun t => cs ++ t) := by
  induction cs with
  | nil => simp
  | cons c cs ih =>
    have hc := h c (by simp)
    have ih2 := ih (fun c hcm => h c (by simp [hcm]))
    simp [renderGo, hc.1, hc.2, ih2, Option.map_map]
    rfl

/-- Inside a field, brace-free characters accumulate onto the field name
until the closing brace resolves it. -/
theorem renderGo_scan (f : String → Option String) (name rest : List Char)
    (h : ∀ c ∈ name, c ≠ obrace ∧ c ≠ cbrace) :
    ∀ acc : List Char,
      renderGo f true acc (name ++ cbrace :: rest) =
        (f (String.mk (acc ++ name))).bind
          (fun v => (renderGo f false [] rest).map (fun t => v.data ++ t)) := by
  induction name with
  | nil =>
    intro acc
    simp only [List.nil_append, List.append_nil]
    rw [renderGo]
    simp only [if_pos rfl]
    cases f (String.mk acc) <;> simp
  | cons c name ih =>
    intro acc
    have hc := h c (by simp)
    have ih2 := ih (fun c hcm => h c (by simp [hcm])) (acc ++ [c])
    simp only [List.cons_append]
    rw [renderGo]
    simp [hc.2, ih2, List.append_assoc]


/-- A placeholder `\x7bname\x7d` renders to the field's value. -/
theorem renderGo_placeholder (f : String → Option String) (name rest : List Char)
    (h : ∀ c ∈ name, c ≠ obrace ∧ c ≠ cbrace) :
    renderGo f false [] ((obrace :: (name ++ [cbrace])) ++ rest) =
      (f (String.mk name)).bind
        (fun v => (renderGo f false [] rest).map (fun t => v.data ++ t)) := by
  simp only [List.cons_append]
  rw [renderGo]
  simp only [if_pos rfl]
  have he : (name ++ [cbrace]) ++ rest = name ++ cbrace :: rest := by simp
  rw [he, renderGo_scan f name rest h []]
  simp

/-- A template assembled from brace-free literals and the four placeholders
renders to the same sequence with each placeholder replaced by its value. -/
theorem renderGo_segs (f : String → Option String) (vs vt vg vu : String)
    (hfs : f "streamer" = some vs) (hft : f "title" = some vt)
    (hfg : f "game" = some vg) (hfu : f "url" = some vu) :
    ∀ segs : List TSeg, (∀ seg ∈ segs, seg.ok) →
      renderGo f false [] (segsChars segs) = some (segsVal vs vt vg vu segs) := by
  intro segs
  induction segs with
  | nil => intro _; simp [segsChars, segsVal, renderGo]
  | cons seg rest ih =>
    intro hok
    have ih2 := ih (fun s hs => hok s (by simp [hs]))
    have hch : segsChars (seg :: rest) = seg.flat.data ++ segsChars rest := by
      simp [segsChars]
    have hvl : segsVal vs vt vg vu (seg :: rest) =
        (seg.value vs vt vg vu).data ++ segsVal vs vt vg vu rest := by
      simp [segsVal]
    rw [hch, hvl]
    cases seg with
    | lit s =>
      have hs := hok (TSeg.lit s) (by simp)
      have hnb : ∀ c ∈ s.data, c ≠ obrace ∧ c ≠ cbrace := by
        intro c hc
        exact ⟨fun hh => hs.1 (hh ▸ hc), fun hh => hs.2 (hh ▸ hc)⟩
      have hf : (TSeg.lit s).flat = s := rfl
      have hv : TSeg.value vs vt vg vu (TSeg.lit s) = s := rfl
      rw [hf, hv, renderGo_lit_run f s.data (segsChars rest) hnb, ih2]
      rfl
    | phStreamer =>
      have hd : TSeg.phStreamer.flat.data = obrace :: ("streamer".data ++ [cbrace]) := rfl
      have hv : TSeg.value vs vt vg vu TSeg.phStreamer = vs := rfl
      rw [hd, hv, renderGo_placeholder f "streamer".data (segsChars rest) (by decide), ih2]
      simp [hfs]
    | phTitle =>
      have hd : TSeg.phTitle.flat.data = obrace :: ("title".data ++ [cbrace]) := rfl
      have hv : TSeg.value vs vt vg vu TSeg.phTitle = vt := rfl
      rw [hd, hv, renderGo_placeholder f "title".data (segsChars rest) (by decide), ih2]
      simp [hft]
    | phGame =>
      have hd : TSeg.phGame.flat.data = obrace :: ("game".data ++ [cbrace]) := rfl
      have hv : TSeg.value vs vt vg vu TSeg.phGame = vg := rfl
      rw [hd, hv, renderGo_placeholder f "game".data (segsChars rest) (by decide), ih2]
      simp [hfg]
    | phUrl =>
      have hd : TSeg.phUrl.flat.data = obrace :: ("url".data ++ [cbrace]) := rfl
      have hv : TSeg.value vs vt vg vu TSeg.phUrl = vu := rfl
      rw [hd, hv, renderGo_placeholder f "url".data (segsChars rest) (by decide), ih2]
      simp [hfu]


/-- Claim C9: for every template built from the four placeholders and
brace-free literal text, stored as the streamer's custom message, the
rendered notification substitutes every placeholder with its value, where a
missing title renders as `"No title"` and a missing category as
`"No category"`; in particular the spec's template with a snapshot missing
`game_name` renders the category fallback. -/
theorem claim9_template_rendering (gd : GuildData) (streamer : String) (d : StreamData)
    (segs : List TSeg) (hok : ∀ seg ∈ segs, seg.ok)
    (htm : dictGet gd.custom_messages streamer = some (String.mk (segsChars segs))) :
    notification_message gd streamer d =
      some (String.mk (segsVal streamer (d.title.getD "No title")
        (d.game_name.getD "No category") ("https://twitch.tv/" ++ streamer) segs)) ∧
    notification_message gdCustom "alice" sdLiveTitled =
      some "alice live: T (No category) https://twitch.tv/alice" := by
  constructor
  · unfold notification_message pyFormat
    rw [htm]
    simp only [Option.getD_some]
    have hF := renderGo_segs (fieldValues streamer (d.title.getD "No title")
      (d.game_name.getD "No category") ("https://twitch.tv/" ++ streamer))
      streamer (d.title.getD "No title") (d.game_name.getD "No category")
      ("https://twitch.tv/" ++ streamer) rfl rfl rfl rfl segs hok
    exact congrArg (Option.map String.mk) hF
  · decide


/-- Witness for C9 at the spec's concrete template. -/
theorem claim9_witness :
    dictGet gdCustom.custom_messages "alice" =
      some (String.mk (segsChars [TSeg.phStreamer, TSeg.lit " live: ", TSeg.phTitle,
        TSeg.lit " (", TSeg.phGame, TSeg.lit ") ", TSeg.phUrl])) ∧
    notification_message gdCustom "alice" sdLiveTitled =
      some "alice live: T (No category) https://twitch.tv/alice" := by
  refine ⟨by decide, ?_⟩
  exact (claim9_template_rendering gdCustom "alice" sdLiveTitled
    [TSeg.phStreamer, TSeg.lit " live: ", TSeg.phTitle, TSeg.lit " (", TSeg.phGame,
      TSeg.lit ") ", TSeg.phUrl] (by decide) (by decide)).2


/-! ## Claim C10 — removing a streamer -/

/-- Deleting a key from a dict leaves no entry under that key. -/
theorem dictGet_filter_self (l : List (String × String)) (nm : String) :
    dictGet (l.filter (fun p => !decide (p.1 = nm))) nm = none := by
  induction l with
  | nil => rfl
  | cons p rest ih =>
    rw [List.filter_cons]
    by_cases h : p.1 = nm
    · have hd : (!decide (p.1 = nm)) = false := by simp [h]
      rw [hd]
      exact ih
    · have hd : (!decide (p.1 = nm)) = true := by simp [h]
      rw [hd]
      show (if p.1 = nm then some p.2
        else dictGet (rest.filter (fun p => !decide (p.1 = nm))) nm) = none
      rw [if_neg h]
      exact ih

/-- Deleting a key from a dict leaves every other key's entry unchanged. -/
theorem dictGet_filter_other (l : List (String × String)) (nm s : String) (hs : s ≠ nm) :
    dictGet (l.filter (fun p => !decide (p.1 = nm))) s = dictGet l s := by
  induction l with
  | nil => rfl
  | cons p rest ih =>
    rw [List.filter_cons]
    by_cases h : p.1 = nm
    · have hd : (!decide (p.1 = nm)) = false := by simp [h]
      have hps : p.1 ≠ s := fun hh => hs (hh ▸ h)
      rw [hd]
      show dictGet (rest.filter (fun p => !decide (p.1 = nm))) s =
        (if p.1 = s then some p.2 else dictGet rest s)
      rw [if_neg hps]
      exact ih
    · have hd : (!decide (p.1 = nm)) = true := by simp [h]
      rw [hd]
      show (if p.1 = s then some p.2
          else dictGet (rest.filter (fun p => !decide (p.1 = nm))) s) =
        (if p.1 = s then some p.2 else dictGet rest s)
      rw [ih]

/-- Claim C10, amended: on either backend, removing a monitored name
(compared after lowercasing) returns `True`, removes the name from the
monitored list, deletes its custom-message entry, and leaves the
notification channel, other streamers, other custom messages and other
guilds unchanged (the in-memory backend removes the first list occurrence,
so its post-state is stated under the no-duplicates invariant).  Removing a
non-monitored name returns `False` and changes nothing on the in-memory
backend; on the MongoDB backend this holds provided no custom-message entry
exists under the name — otherwise the update still modifies the document
(see the counterexample). -/
theorem claim10_remove_streamer (guilds : Guilds) (gid : Int) (name : String) (gd : GuildData) :
    (guilds gid = some gd → pyLower name ∈ gd.streamers → gd.streamers.Nodup →
      (DatabaseService.remove_streamer guilds gid name).2 = true ∧
      ∃ gd', (DatabaseService.remove_streamer guilds gid name).1 gid = some gd' ∧
        pyLower name ∉ gd'.streamers ∧
        (∀ s, s ≠ pyLower name → (s ∈ gd'.streamers ↔ s ∈ gd.streamers)) ∧
        gd'.notification_channel = gd.notification_channel ∧
        dictGet gd'.custom_messages (pyLower name) = none ∧
        (∀ s, s ≠ pyLower name → dictGet gd'.custom_messages s = dictGet gd.custom_messages s) ∧
        (∀ g, g ≠ gid → (DatabaseService.remove_streamer guilds gid name).1 g = guilds g)) ∧
    (guilds gid = some gd → pyLower name ∉ gd.streamers →
      DatabaseService.remove_streamer guilds gid name = (guilds, false)) ∧
    (guilds gid = none → DatabaseService.remove_streamer guilds gid name = (guilds, false)) ∧
    (guilds gid = some gd → pyLower name ∈ gd.streamers →
      (MongoDBService.remove_streamer guilds gid name).2 = true ∧
      ∃ gd', (MongoDBService.remove_streamer guilds gid name).1 gid = some gd' ∧
        pyLower name ∉ gd'.streamers ∧
        (∀ s, s ≠ pyLower name → (s ∈ gd'.streamers ↔ s ∈ gd.streamers)) ∧
        gd'.notification_channel = gd.notification_channel ∧
        dictGet gd'.custom_messages (pyLower name) = none ∧
        (∀ s, s ≠ pyLower name → dictGet gd'.custom_messages s = dictGet gd.custom_messages s) ∧
        (∀ g, g ≠ gid → (MongoDBService.remove_streamer guilds gid name).1 g = guilds g)) ∧
    (guilds gid = some gd → pyLower name ∉ gd.streamers →
      dictGet gd.custom_messages (pyLower name) = none →
      MongoDBService.remove_streamer guilds gid name = (guilds, false)) ∧
    (guilds gid = none → MongoDBService.remove_streamer guilds gid name = (guilds, false)) := by
  refine ⟨?_, ?_, ?_, ?_, ?_, ?_⟩
  · intro hg hm hnd
    have hstep : DatabaseService.remove_streamer guilds gid name =
        (fun g => if g = gid then some
            { streamers := gd.streamers.erase (pyLower name)
              notification_channel := gd.notification_channel
              custom_messages := gd.custom_messages.filter
                (fun p => !decide (p.1 = pyLower name)) }
          else guilds g, true) := by
      simp only [DatabaseService.remove_streamer, hg, if_pos hm]
    rw [hstep]
    refine ⟨rfl, ?_⟩
    refine ⟨{ streamers := gd.streamers.erase (pyLower name)
              notification_channel := gd.notification_channel
              custom_messages := gd.custom_messages.filter
                (fun p => !decide (p.1 = pyLower name)) },
      by simp, ?_, ?_, rfl, ?_, ?_, ?_⟩
    · exact List.Nodup.not_mem_erase hnd
    · intro s hs
      exact List.mem_erase_of_ne hs
    · exact dictGet_filter_self gd.custom_messages (pyLower name)
    · intro s hs
      exact dictGet_filter_other gd.custom_messages (pyLower name) s hs
    · intro g hgne
      simp [if_neg hgne]
  · intro hg hm
    simp only [DatabaseService.remove_streamer, hg, if_neg hm]
  · intro hg
    simp only [DatabaseService.remove_streamer, hg]
  · intro hg hm
    have hmod : (decide (pyLower name ∈ gd.streamers) ||
        (dictGet gd.custom_messages (pyLower name)).isSome) = true := by
      simp [hm]
    have hstep : MongoDBService.remove_streamer guilds gid name =
        (fun g => if g = gid then some
            { streamers := gd.streamers.filter (fun s => !decide (s = pyLower name))
              notification_channel := gd.notification_channel
              custom_messages := gd.custom_messages.filter
                (fun p => !decide (p.1 = pyLower name)) }
          else guilds g, true) := by
      simp only [MongoDBService.remove_streamer, hg, hmod, if_true]
    rw [hstep]
    refine ⟨rfl, ?_⟩
    refine ⟨{ streamers := gd.streamers.filter (fun s => !decide (s = pyLower name))
              notification_channel := gd.notification_channel
              custom_messages := gd.custom_messages.filter
                (fun p => !decide (p.1 = pyLower name)) },
      by simp, ?_, ?_, rfl, ?_, ?_, ?_⟩
    · simp [List.mem_filter]
    · intro s hs
      simp [List.mem_filter, hs]
    · exact dictGet_filter_self gd.custom_messages (pyLower name)
    · intro s hs
      exact dictGet_filter_other gd.custom_messages (pyLower name) s hs
    · intro g hgne
      simp [if_neg hgne]
  · intro hg hm hcm
    have hmod : (decide (pyLower name ∈ gd.streamers) ||
        (dictGet gd.custom_messages (pyLower name)).isSome) = false := by
      simp [hm, hcm]
    simp only [MongoDBService.remove_streamer, hg, hmod]
    simp
  · intro hg
    simp only [MongoDBService.remove_streamer, hg]


/-- Claim C10 as stated is false on the MongoDB backend: with no streamer
monitored but a stray custom-message entry `alice`, `remove_streamer`
returns `True` (the `$unset` modifies the document) and deletes that entry,
instead of returning `False` and changing nothing. -/
theorem claim10_counterexample :
    pyLower "alice" ∉ gdStray.streamers ∧
    guildsStray 1 = some gdStray ∧
    (MongoDBService.remove_streamer guildsStray 1 "alice").2 = true ∧
    ((MongoDBService.remove_streamer guildsStray 1 "alice").1 1).map
      (fun gd => dictGet gd.custom_messages "alice") = some none := by
  refine ⟨by decide, by decide, by decide, by decide⟩

/-- Witness for the amended C10: both backends remove `Alice` (monitored in
lowercase) from `gdTwo`; the MongoDB backend is a no-op on a name that is
neither monitored nor a custom-message key. -/
theorem claim10_witness :
    guildsTwo 1 = some gdTwo ∧ pyLower "Alice" ∈ gdTwo.streamers ∧
    gdTwo.streamers.Nodup ∧
    (DatabaseService.remove_streamer guildsTwo 1 "Alice").2 = true ∧
    (MongoDBService.remove_streamer guildsTwo 1 "Alice").2 = true ∧
    MongoDBService.remove_streamer guildsStray 1 "bob" = (guildsStray, false) := by
  have h := claim10_remove_streamer guildsTwo 1 "Alice" gdTwo
  have h2 := claim10_remove_streamer guildsStray 1 "bob" gdStray
  exact ⟨by decide, by decide, by decide, (h.1 (by decide) (by decide) (by decide)).1,
    (h.2.2.2.1 (by decide) (by decide)).1,
    h2.2.2.2.2.1 (by decide) (by decide) (by decide)⟩
